import Mathlib

/-!
# Web::Streams::ReadableStream

A shallow embedding of `Userland/Libraries/LibWeb/Streams/ReadableStream.cpp`.

The member functions of `ReadableStream` are translated into state-passing
functions over a record of the stream's members.  Heap objects the stream
points to (its reader and its controller) are held by value.  Operations that
live in other translation units are taken as parameters where a property holds
whatever they do, and are given a definition following the specification
where a property depends on what they do.  Every function that can call
another operation of the library also returns the list of the calls it made,
in order.
-/

namespace Web.Streams

/-! ## Values, completions, promises -/

/-- Address of a garbage-collected `JS::Object` cell. -/
abbrev ObjectPtr := Nat

/-- The `JS::Value`s this file builds: `js_undefined()`, `js_null()`,
`JS::Value(1)` and `JS::Value(object pointer)`. -/
inductive Value where
  | undefined
  | null
  | number (n : Int)
  | object (ptr : ObjectPtr)
  deriving DecidableEq, Repr

/-- A `JS::Completion`: normal with a value, or a throw. -/
inductive Completion where
  | normal (value : Value)
  | throw (value : Value)
  deriving DecidableEq, Repr

/-- The function `JS::normal_completion`. -/
def JS.normal_completion (value : Value) : Completion := Completion.normal value

/-- `SizeAlgorithm`: a function from a chunk to a completion. -/
abbrev SizeAlgorithm := Value → Completion

/-- Modelled from the spec: the error a `WebIDL::ExceptionOr` carries (its header
is not among the sources).  The out-of-memory throw completion that
`MUST_OR_THROW_OOM` propagates, any other JS throw completion, and the
"stream locked" misuse error of the error taxonomy. -/
inductive Exception where
  | out_of_memory
  | throw_completion (value : Value)
  | LockedStreamError
  deriving DecidableEq, Repr

/-- Modelled from the spec: the Deferred Result, "a single-assignment future
with resolve/reject" (`JS::Promise`, not among the sources). -/
inductive Promise where
  | pending
  | resolved (value : Value)
  | rejected (reason : Value)
  deriving DecidableEq, Repr

/-- Modelled from the spec: `JS::PromiseCapability`; only its `promise()` is
used by this file. -/
structure PromiseCapability where
  promise : Promise
  deriving DecidableEq, Repr

/-- The realm an object lives in.  Its heap can run out of memory; the two
allocating operations this file calls are answered by the realm. -/
structure Realm where
  /-- Whether `realm.heap().allocate<ReadableStream>(...)` finds room. -/
  allocation_succeeds : Bool
  /-- The call `JS::TypeError::create(realm, message)`: the address of the new
  error object, or `none` when it throws the out-of-memory completion. -/
  TypeError_create : String → Option ObjectPtr

/-- The macro `MUST_OR_THROW_OOM(expression)`: the value of an allocating
expression, or an early return of its out-of-memory throw completion. -/
def MUST_OR_THROW_OOM {α : Type} (expression : Option α) : Except Exception α :=
  match expression with
  | some a => Except.ok a
  | none => Except.error Exception.out_of_memory

/-- Modelled from the spec: `WebIDL::create_rejected_promise(realm, reason)`
(not among the sources), a Deferred Result that is already rejected with
`reason`. -/
def create_rejected_promise (_realm : Realm) (reason : Value) : PromiseCapability :=
  { promise := Promise.rejected reason }

/-! ## Data model -/

/-- Modelled from the spec: `ReadableStream::State`, "enum {Readable, Closed,
Errored}" (the header is not among the sources; the three names are the ones
the source compares `m_state` with). -/
inductive State where
  | Readable
  | Closed
  | Errored
  deriving DecidableEq, Repr

/-- Modelled from the spec: a Read Request, one pending read, identified by the
order in which it was registered. -/
structure ReadRequest where
  id : Nat
  deriving DecidableEq, Repr

/-- The one stream a reader of this embedding can be associated with. -/
abbrev StreamRef := Unit

/-- Modelled from the spec: the Reader (`ReadableStreamDefaultReader`, not among
the sources): a FIFO of pending read requests, the closed promise, and the
non-owning reference to the associated stream. -/
structure Reader where
  readRequests : List ReadRequest
  closedPromise : Promise
  stream : Option StreamRef
  deriving DecidableEq, Repr

/-- Modelled from the spec: the Controller (`ReadableStreamDefaultController`,
not among the sources) with the fields of the specification's data model. -/
structure Controller where
  queue : List (Value × Rat)
  queueTotalSize : Rat
  highWaterMark : Rat
  sizeAlgorithm : SizeAlgorithm
  started : Bool
  closeRequested : Bool
  pullAgain : Bool
  pulling : Bool
  cancelAlgorithm : Value → Promise
  pullAlgorithm : Unit → Promise
  startAlgorithm : Unit → Promise

/-- The members of `ReadableStream` (the ones `visit_edges` and the predicates
read): `m_controller`, `m_disturbed`, `m_reader`, `m_state`,
`m_stored_error`. -/
structure ReadableStream where
  m_controller : Option Controller
  m_disturbed : Bool
  m_reader : Option Reader
  m_state : State
  m_stored_error : Value

/-- Modelled from the spec: the constructor `ReadableStream::ReadableStream(realm)`
has an empty body, so a new stream holds the default member initialisers of
the header, which is not among the sources: "state Readable,
disturbed=false, storedError=none, no reader", and no controller before
setup. -/
def ReadableStream.ctor (_realm : Realm) : ReadableStream :=
  { m_controller := none
    m_disturbed := false
    m_reader := none
    m_state := State.Readable
    m_stored_error := Value.undefined }

/-- The call `realm.heap().allocate<T>(...)`: the constructed cell, or nothing
when the heap is out of memory. -/
def Realm.heap_allocate {α : Type} (realm : Realm) (cell : α) : Option α :=
  if realm.allocation_succeeds then some cell else none

/-- Modelled from the spec: the `UnderlyingSource` dictionary (its header is not
among the sources): the optional producer callbacks and the optional `type`.
The enumeration of stream types is a parameter. -/
structure UnderlyingSource (ReadableStreamType : Type) where
  start : Option Value
  pull : Option Value
  cancel : Option Value
  type : Option ReadableStreamType

/-! ## Outcomes and call logs -/

/-- How a call of a function returning `WebIDL::ExceptionOr<α>` ends: it returns
a value, returns an exception, or the process aborts in `TODO()` or in a
failed `VERIFY`. -/
inductive Result (α : Type) where
  | value (a : α)
  | exception (e : Exception)
  | TODO
  | VERIFY_failed

/-- Calls and assertion checks made by `construct_impl`. -/
inductive ConstructCall (ReadableStreamType : Type) where
  | from_value (value : Value)
  | VERIFY (condition : Bool)
  | set_up_readable_stream_default_controller_from_underlying_source
      (stream : ReadableStream) (underlying_source : Value)
      (underlying_source_dict : UnderlyingSource ReadableStreamType)
      (high_water_mark : Rat) (size_algorithm : SizeAlgorithm)

/-- Whether a logged call is the default-controller setup. -/
def ConstructCall.is_set_up {ReadableStreamType : Type} :
    ConstructCall ReadableStreamType → Bool
  | ConstructCall.set_up_readable_stream_default_controller_from_underlying_source .. => true
  | _ => false

/-- Whether a logged entry is an evaluation of the assertion. -/
def ConstructCall.is_VERIFY {ReadableStreamType : Type} :
    ConstructCall ReadableStreamType → Bool
  | ConstructCall.VERIFY _ => true
  | _ => false

/-- Calls made by the member functions of a stream. -/
inductive Call where
  | readable_stream_cancel (stream : ReadableStream) (reason : Value)
  | acquire_readable_stream_default_reader (stream : ReadableStream)

/-- Outcome of `construct_impl`: how it ended and what it called. -/
structure ConstructRun (ReadableStreamType : Type) where
  result : Result ReadableStream
  calls : List (ConstructCall ReadableStreamType)

/-- Outcome of a non-const member function: how it ended, the stream (`*this`)
afterwards, and what it called. -/
structure MemberRun (α : Type) where
  result : Result α
  this : ReadableStream
  calls : List Call

/-! ## Abstract operations the source calls -/

/-- Modelled from the spec: `is_readable_stream_locked(stream)` (in
AbstractOperations, not among the sources): "true iff `reader` is set". -/
def is_readable_stream_locked (stream : ReadableStream) : Bool :=
  stream.m_reader.isSome

/-- Modelled from the spec: the controller's `cancelSteps(reason)`: "clears the
queue, resets `queueTotalSize` to 0, and invokes the producer cancel algorithm
with `reason`, returning its result unchanged". -/
def Controller.cancelSteps (controller : Controller) (reason : Value) :
    Promise × Controller :=
  (controller.cancelAlgorithm reason, { controller with queue := [], queueTotalSize := 0 })

/-- Modelled from the spec: the shared cancel operation `readable_stream_cancel`
(in AbstractOperations, not among the sources): "sets `disturbed=true`; if
already Closed, resolves trivially; if already Errored, resolves trivially with
no new action; otherwise clears the controller queue, [...] the stream becomes
Closed and the reader's closed-promise resolves, then returns the result of
`controller.cancelSteps(reason)`".  Pending read requests are settled as closed
and leave the reader's FIFO.  A stream with no controller has no producer to
cancel and resolves. -/
def readable_stream_cancel (stream : ReadableStream) (reason : Value) :
    Except Exception PromiseCapability × ReadableStream :=
  let stream := { stream with m_disturbed := true }
  match stream.m_state with
  | State.Closed => (Except.ok { promise := Promise.resolved Value.undefined }, stream)
  | State.Errored => (Except.ok { promise := Promise.resolved Value.undefined }, stream)
  | State.Readable =>
    let reader := stream.m_reader.map fun r =>
      { r with closedPromise := Promise.resolved Value.undefined, readRequests := [] }
    let stream := { stream with m_state := State.Closed, m_reader := reader }
    match stream.m_controller with
    | none => (Except.ok { promise := Promise.resolved Value.undefined }, stream)
    | some controller =>
      let steps := controller.cancelSteps reason
      (Except.ok { promise := steps.1 }, { stream with m_controller := some steps.2 })

/-- Modelled from the spec: `acquire_readable_stream_default_reader(stream)` (in
AbstractOperations, not among the sources): "fails with "stream locked" if
already locked; otherwise constructs a Reader, links it as `reader`, and
returns it", where locking "sets `stream.reader = this`, `this.stream =
stream`; initializes `closedPromise`: already resolved if stream is Closed,
already rejected with `storedError` if stream is Errored, otherwise
pending". -/
def acquire_readable_stream_default_reader (stream : ReadableStream) :
    Except Exception Reader × ReadableStream :=
  if is_readable_stream_locked stream then
    (Except.error Exception.LockedStreamError, stream)
  else
    let reader : Reader :=
      { readRequests := []
        closedPromise :=
          match stream.m_state with
          | State.Closed => Promise.resolved Value.undefined
          | State.Errored => Promise.rejected stream.m_stored_error
          | State.Readable => Promise.pending
        stream := some () }
    (Except.ok reader, { stream with m_reader := some reader })

/-! ## ReadableStream.cpp -/

section Source

variable {ReadableStreamType : Type} [DecidableEq ReadableStreamType]

/-- The function `ReadableStream::construct_impl(realm, underlying_source_object)`.
`Bytes` is `ReadableStreamType::Bytes`; `from_value` is
`UnderlyingSource::from_value` and `set_up` is
`set_up_readable_stream_default_controller_from_underlying_source`, which
works on the stream it is given by reference. -/
def construct_impl (realm : Realm) (Bytes : ReadableStreamType)
    (from_value : Value → Except Exception (UnderlyingSource ReadableStreamType))
    (set_up : ReadableStream → Value → UnderlyingSource ReadableStreamType → Rat →
      SizeAlgorithm → Except Exception Unit × ReadableStream)
    (underlying_source_object : Option ObjectPtr) : ConstructRun ReadableStreamType :=
  match MUST_OR_THROW_OOM (realm.heap_allocate (ReadableStream.ctor realm)) with
  | Except.error e => { result := Result.exception e, calls := [] }
  | Except.ok readable_stream =>
    -- 1. If underlyingSource is missing, set it to null.
    let underlying_source := (underlying_source_object.map Value.object).getD Value.null
    -- 2. Let underlyingSourceDict be underlyingSource, converted to an IDL value.
    match from_value underlying_source with
    | Except.error e =>
      { result := Result.exception e, calls := [ConstructCall.from_value underlying_source] }
    | Except.ok underlying_source_dict =>
      -- 4. If underlyingSourceDict["type"] is "bytes":
      if underlying_source_dict.type.isSome
          && decide (underlying_source_dict.type = some Bytes) then
        { result := Result.TODO, calls := [ConstructCall.from_value underlying_source] }
      -- 5. Otherwise,
      else
        -- 1. Assert: underlyingSourceDict["type"] does not exist.
        if !underlying_source_dict.type.isSome then
          let size_algorithm : SizeAlgorithm := fun _ => JS.normal_completion (Value.number 1)
          let high_water_mark : Rat := 1
          let calls :=
            [ConstructCall.from_value underlying_source, ConstructCall.VERIFY true,
              ConstructCall.set_up_readable_stream_default_controller_from_underlying_source
                readable_stream underlying_source underlying_source_dict high_water_mark
                size_algorithm]
          match set_up readable_stream underlying_source underlying_source_dict
              high_water_mark size_algorithm with
          | (Except.error e, _) => { result := Result.exception e, calls := calls }
          | (Except.ok (), readable_stream) =>
            { result := Result.value readable_stream, calls := calls }
        else
          { result := Result.VERIFY_failed
            calls := [ConstructCall.from_value underlying_source, ConstructCall.VERIFY false] }

end Source

/-- The function `ReadableStream::locked()`, a non-const member. -/
def ReadableStream.locked (this : ReadableStream) : Bool × ReadableStream :=
  -- 1. Return ! IsReadableStreamLocked(this).
  (is_readable_stream_locked this, this)

/-- The function `ReadableStream::cancel(reason)`.  `realm` is `this->realm()`;
`readable_stream_cancel` works on the stream it is given by reference. -/
def ReadableStream.cancel (realm : Realm)
    (readable_stream_cancel :
      ReadableStream → Value → Except Exception PromiseCapability × ReadableStream)
    (this : ReadableStream) (reason : Value) : MemberRun Promise :=
  -- 1. If ! IsReadableStreamLocked(this) is true, return a promise rejected with a TypeError.
  if is_readable_stream_locked this then
    match MUST_OR_THROW_OOM (realm.TypeError_create "Cannot cancel a locked stream") with
    | Except.error e => { result := Result.exception e, this := this, calls := [] }
    | Except.ok exception =>
      { result := Result.value (create_rejected_promise realm (Value.object exception)).promise
        this := this
        calls := [] }
  else
    -- 2. Return ! ReadableStreamCancel(this, reason).
    match readable_stream_cancel this reason with
    | (Except.error e, stream) =>
      { result := Result.exception e, this := stream
        calls := [Call.readable_stream_cancel this reason] }
    | (Except.ok capability, stream) =>
      { result := Result.value capability.promise, this := stream
        calls := [Call.readable_stream_cancel this reason] }

/-- The function `ReadableStream::get_reader()`;
`acquire_readable_stream_default_reader` works on the stream it is given by
reference. -/
def ReadableStream.get_reader
    (acquire_readable_stream_default_reader :
      ReadableStream → Except Exception Reader × ReadableStream)
    (this : ReadableStream) : MemberRun Reader :=
  match acquire_readable_stream_default_reader this with
  | (Except.error e, stream) =>
    { result := Result.exception e, this := stream
      calls := [Call.acquire_readable_stream_default_reader this] }
  | (Except.ok reader, stream) =>
    { result := Result.value reader, this := stream
      calls := [Call.acquire_readable_stream_default_reader this] }

/-- The function `ReadableStream::is_readable() const`. -/
def ReadableStream.is_readable (this : ReadableStream) : Bool :=
  decide (this.m_state = State.Readable)

/-- The function `ReadableStream::is_closed() const`. -/
def ReadableStream.is_closed (this : ReadableStream) : Bool :=
  decide (this.m_state = State.Closed)

/-- The function `ReadableStream::is_errored() const`. -/
def ReadableStream.is_errored (this : ReadableStream) : Bool :=
  decide (this.m_state = State.Errored)

/-- The function `ReadableStream::is_locked() const`. -/
def ReadableStream.is_locked (this : ReadableStream) : Bool :=
  is_readable_stream_locked this

/-- The function `ReadableStream::is_disturbed() const`. -/
def ReadableStream.is_disturbed (this : ReadableStream) : Bool :=
  this.m_disturbed

/-! ## Sample inputs -/

/-- A realm whose heap has room and whose new error objects live at address 7. -/
def sample_realm : Realm :=
  { allocation_succeeds := true, TypeError_create := fun _ => some 7 }

/-- A reader holding the lock of a readable stream, with no pending read. -/
def sample_reader : Reader :=
  { readRequests := [], closedPromise := Promise.pending, stream := some () }

/-- A readable, undisturbed stream with no reader. -/
def sample_unlocked_stream : ReadableStream :=
  ReadableStream.ctor sample_realm

/-- A readable, undisturbed stream locked by `sample_reader`. -/
def sample_locked_stream : ReadableStream :=
  { ReadableStream.ctor sample_realm with m_reader := some sample_reader }

/-- A closed stream, disturbed, with no reader. -/
def sample_closed_stream : ReadableStream :=
  { ReadableStream.ctor sample_realm with m_state := State.Closed, m_disturbed := true }

/-- A stream-type enumeration whose only value is `Bytes`. -/
inductive SampleReadableStreamType where
  | Bytes
  deriving DecidableEq, Repr

/-- A dictionary with no member. -/
def sample_dict : UnderlyingSource SampleReadableStreamType :=
  { start := none, pull := none, cancel := none, type := none }

/-- A dictionary whose type is "bytes". -/
def sample_bytes_dict : UnderlyingSource SampleReadableStreamType :=
  { start := none, pull := none, cancel := none, type := some SampleReadableStreamType.Bytes }

/-- A conversion: the object at address 1 has type "bytes", converting the
object at address 2 throws the value 13, every other source has no member. -/
def sample_from_value (value : Value) :
    Except Exception (UnderlyingSource SampleReadableStreamType) :=
  match value with
  | Value.object 1 => Except.ok sample_bytes_dict
  | Value.object 2 => Except.error (Exception.throw_completion (Value.number 13))
  | _ => Except.ok sample_dict

/-- A setup that succeeds and stores the limits in a new controller whose
producer algorithms resolve at once. -/
def sample_set_up (stream : ReadableStream) (_underlying_source : Value)
    (_underlying_source_dict : UnderlyingSource SampleReadableStreamType)
    (high_water_mark : Rat) (size_algorithm : SizeAlgorithm) :
    Except Exception Unit × ReadableStream :=
  (Except.ok (),
    { stream with
      m_controller := some
        { queue := [], queueTotalSize := 0, highWaterMark := high_water_mark
          sizeAlgorithm := size_algorithm, started := false, closeRequested := false
          pullAgain := false, pulling := false
          cancelAlgorithm := fun _ => Promise.resolved Value.undefined
          pullAlgorithm := fun _ => Promise.resolved Value.undefined
          startAlgorithm := fun _ => Promise.resolved Value.undefined } })

/-- A cancel operation that fails with a thrown value 5. -/
def sample_failing_cancel (stream : ReadableStream) (_reason : Value) :
    Except Exception PromiseCapability × ReadableStream :=
  (Except.error (Exception.throw_completion (Value.number 5)), stream)

/-! ## Theorems -/

/-- C1: on a locked stream, `cancel` never calls `readable_stream_cancel`, leaves
the stream (state, stored error, disturbed flag, reader, controller) as it was,
and returns the promise rejected with the TypeError object that
`TypeError::create` made. -/
theorem cancel_locked_rejects (realm : Realm)
    (rsc : ReadableStream → Value → Except Exception PromiseCapability × ReadableStream)
    (this : ReadableStream) (reason : Value)
    (hlocked : is_readable_stream_locked this = true) :
    (ReadableStream.cancel realm rsc this reason).calls = []
    ∧ (ReadableStream.cancel realm rsc this reason).this = this
    ∧ ∀ exception : ObjectPtr,
        realm.TypeError_create "Cannot cancel a locked stream" = some exception →
        (ReadableStream.cancel realm rsc this reason).result
          = Result.value (Promise.rejected (Value.object exception)) := by
  unfold ReadableStream.cancel
  rw [if_pos hlocked]
  cases hcreate : realm.TypeError_create "Cannot cancel a locked stream" with
  | none => simp [MUST_OR_THROW_OOM]
  | some exception => simp [MUST_OR_THROW_OOM, create_rejected_promise]

/-- Witness of C1 on `sample_locked_stream`. -/
theorem cancel_locked_rejects_witness :
    is_readable_stream_locked sample_locked_stream = true
    ∧ (ReadableStream.cancel sample_realm readable_stream_cancel sample_locked_stream
        Value.null).calls = []
    ∧ (ReadableStream.cancel sample_realm readable_stream_cancel sample_locked_stream
        Value.null).this = sample_locked_stream
    ∧ (ReadableStream.cancel sample_realm readable_stream_cancel sample_locked_stream
        Value.null).result = Result.value (Promise.rejected (Value.object 7)) :=
  have h := cancel_locked_rejects sample_realm readable_stream_cancel sample_locked_stream
    Value.null rfl
  ⟨rfl, h.1, h.2.1, h.2.2 7 rfl⟩

/-- C2: on an unlocked stream, `cancel` calls `readable_stream_cancel` exactly
once, with the stream and the reason it was given, leaves the stream as that
operation left it, and returns the promise of the capability it yields, or
fails with the exception it fails with. -/
theorem cancel_unlocked_delegates (realm : Realm)
    (rsc : ReadableStream → Value → Except Exception PromiseCapability × ReadableStream)
    (this : ReadableStream) (reason : Value)
    (hunlocked : is_readable_stream_locked this = false) :
    (ReadableStream.cancel realm rsc this reason).calls
        = [Call.readable_stream_cancel this reason]
    ∧ (ReadableStream.cancel realm rsc this reason).this = (rsc this reason).2
    ∧ (∀ capability : PromiseCapability, (rsc this reason).1 = Except.ok capability →
        (ReadableStream.cancel realm rsc this reason).result
          = Result.value capability.promise)
    ∧ (∀ e : Exception, (rsc this reason).1 = Except.error e →
        (ReadableStream.cancel realm rsc this reason).result = Result.exception e) := by
  unfold ReadableStream.cancel
  simp only [hunlocked, Bool.false_eq_true, if_false]
  rcases hrun : rsc this reason with ⟨outcome, stream⟩
  cases outcome with
  | error e => simp
  | ok capability => simp

/-- Witness of C2: on `sample_unlocked_stream` the shared operation runs once
and its promise is returned; with a failing operation its exception is. -/
theorem cancel_unlocked_delegates_witness :
    is_readable_stream_locked sample_unlocked_stream = false
    ∧ (ReadableStream.cancel sample_realm readable_stream_cancel sample_unlocked_stream
        Value.null).calls = [Call.readable_stream_cancel sample_unlocked_stream Value.null]
    ∧ (ReadableStream.cancel sample_realm readable_stream_cancel sample_unlocked_stream
        Value.null).result = Result.value (Promise.resolved Value.undefined)
    ∧ (ReadableStream.cancel sample_realm sample_failing_cancel sample_unlocked_stream
        Value.null).result
        = Result.exception (Exception.throw_completion (Value.number 5)) :=
  have h := cancel_unlocked_delegates sample_realm readable_stream_cancel
    sample_unlocked_stream Value.null rfl
  have hf := cancel_unlocked_delegates sample_realm sample_failing_cancel
    sample_unlocked_stream Value.null rfl
  ⟨rfl, h.1, h.2.2.1 _ rfl, hf.2.2.2 _ rfl⟩

/-- C3, as stated, fails: `cancel` on the locked, undisturbed
`sample_locked_stream` returns a (rejected) promise and the stream is still
undisturbed. -/
theorem cancel_locked_leaves_undisturbed :
    (ReadableStream.cancel sample_realm readable_stream_cancel sample_locked_stream
        Value.undefined).result = Result.value (Promise.rejected (Value.object 7))
    ∧ ReadableStream.is_disturbed
        (ReadableStream.cancel sample_realm readable_stream_cancel sample_locked_stream
          Value.undefined).this = false :=
  ⟨rfl, rfl⟩

/-- C3, amended: after `cancel` on an unlocked stream (any state, any reason)
`is_disturbed()` is true; after `cancel` on a locked stream `is_disturbed()` is
what it was before the call. -/
theorem cancel_sets_disturbed_when_unlocked (realm : Realm) (this : ReadableStream)
    (reason : Value) :
    (is_readable_stream_locked this = false →
      ReadableStream.is_disturbed
        (ReadableStream.cancel realm readable_stream_cancel this reason).this = true)
    ∧ (is_readable_stream_locked this = true →
      ReadableStream.is_disturbed
        (ReadableStream.cancel realm readable_stream_cancel this reason).this
        = ReadableStream.is_disturbed this) := by
  constructor
  · intro hunlocked
    unfold ReadableStream.cancel
    simp only [hunlocked, Bool.false_eq_true, if_false]
    unfold readable_stream_cancel
    cases hstate : this.m_state with
    | Closed => simp [hstate, ReadableStream.is_disturbed]
    | Errored => simp [hstate, ReadableStream.is_disturbed]
    | Readable =>
      cases hcontroller : this.m_controller with
      | none => simp [hstate, hcontroller, ReadableStream.is_disturbed]
      | some controller => simp [hstate, hcontroller, ReadableStream.is_disturbed]
  · intro hlocked
    unfold ReadableStream.cancel
    rw [if_pos hlocked]
    cases realm.TypeError_create "Cannot cancel a locked stream" with
    | none => simp [MUST_OR_THROW_OOM]
    | some exception => simp [MUST_OR_THROW_OOM]

/-- Witness of amended C3: the unlocked sample stream is disturbed after
`cancel`, the locked one keeps its flag. -/
theorem cancel_sets_disturbed_when_unlocked_witness :
    is_readable_stream_locked sample_unlocked_stream = false
    ∧ ReadableStream.is_disturbed sample_unlocked_stream = false
    ∧ ReadableStream.is_disturbed
        (ReadableStream.cancel sample_realm readable_stream_cancel sample_unlocked_stream
          Value.null).this = true
    ∧ is_readable_stream_locked sample_locked_stream = true
    ∧ ReadableStream.is_disturbed
        (ReadableStream.cancel sample_realm readable_stream_cancel sample_locked_stream
          Value.null).this = ReadableStream.is_disturbed sample_locked_stream :=
  ⟨rfl, rfl,
    (cancel_sets_disturbed_when_unlocked sample_realm sample_unlocked_stream Value.null).1 rfl,
    rfl,
    (cancel_sets_disturbed_when_unlocked sample_realm sample_locked_stream Value.null).2 rfl⟩

/-- C4: `get_reader` on a locked stream fails and leaves the stream, its reader
included, as it was; on an unlocked stream it returns the reader that
`acquire_readable_stream_default_reader` produced and the stream is then locked
with that reader; so of two successive calls the second never succeeds when the
first did. -/
theorem get_reader_exclusive (this : ReadableStream) :
    (ReadableStream.is_locked this = true →
      (ReadableStream.get_reader acquire_readable_stream_default_reader this).result
          = Result.exception Exception.LockedStreamError
      ∧ (ReadableStream.get_reader acquire_readable_stream_default_reader this).this = this)
    ∧ (ReadableStream.is_locked this = false →
      ∃ reader : Reader,
        (acquire_readable_stream_default_reader this).1 = Except.ok reader
        ∧ (ReadableStream.get_reader acquire_readable_stream_default_reader this).result
            = Result.value reader
        ∧ (ReadableStream.get_reader acquire_readable_stream_default_reader this).this.m_reader
            = some reader
        ∧ ReadableStream.is_locked
            (ReadableStream.get_reader acquire_readable_stream_default_reader this).this = true)
    ∧ (∀ first second : Reader,
      (ReadableStream.get_reader acquire_readable_stream_default_reader this).result
          = Result.value first →
      (ReadableStream.get_reader acquire_readable_stream_default_reader
          (ReadableStream.get_reader acquire_readable_stream_default_reader this).this).result
        ≠ Result.value second) := by
  cases hlocked : is_readable_stream_locked this with
  | true =>
    have hrun : ReadableStream.get_reader acquire_readable_stream_default_reader this
        = { result := Result.exception Exception.LockedStreamError, this := this
            calls := [Call.acquire_readable_stream_default_reader this] } := by
      simp only [ReadableStream.get_reader, acquire_readable_stream_default_reader, hlocked,
        if_true]
    rw [hrun]
    simp [ReadableStream.is_locked, hlocked]
  | false =>
    obtain ⟨reader, hrun⟩ : ∃ reader : Reader,
        ReadableStream.get_reader acquire_readable_stream_default_reader this
          = { result := Result.value reader, this := { this with m_reader := some reader }
              calls := [Call.acquire_readable_stream_default_reader this] }
        ∧ (acquire_readable_stream_default_reader this).1 = Except.ok reader := by
      simp only [ReadableStream.get_reader, acquire_readable_stream_default_reader, hlocked,
        Bool.false_eq_true, if_false]
      exact ⟨_, rfl, rfl⟩
    have hnext : ∀ stream : ReadableStream, is_readable_stream_locked stream = true →
        ∀ second : Reader,
          (ReadableStream.get_reader acquire_readable_stream_default_reader stream).result
            ≠ Result.value second := by
      intro stream hstream second
      simp only [ReadableStream.get_reader, acquire_readable_stream_default_reader, hstream,
        if_true]
      simp
    refine ⟨?_, ?_, ?_⟩
    · simp [ReadableStream.is_locked, hlocked]
    · intro _
      refine ⟨reader, hrun.2, ?_, ?_, ?_⟩
      · rw [hrun.1]
      · rw [hrun.1]
      · rw [hrun.1]; rfl
    · intro first second _
      apply hnext
      rw [hrun.1]
      rfl

/-- Witness of C4: the locked sample stream refuses a reader and keeps
`sample_reader`; the unlocked one hands out a reader once, not twice. -/
theorem get_reader_exclusive_witness :
    ReadableStream.is_locked sample_locked_stream = true
    ∧ (ReadableStream.get_reader acquire_readable_stream_default_reader
        sample_locked_stream).result = Result.exception Exception.LockedStreamError
    ∧ (ReadableStream.get_reader acquire_readable_stream_default_reader
        sample_locked_stream).this.m_reader = some sample_reader
    ∧ (ReadableStream.get_reader acquire_readable_stream_default_reader
        sample_unlocked_stream).result = Result.value sample_reader
    ∧ (ReadableStream.get_reader acquire_readable_stream_default_reader
        (ReadableStream.get_reader acquire_readable_stream_default_reader
          sample_unlocked_stream).this).result ≠ Result.value sample_reader :=
  have hl := (get_reader_exclusive sample_locked_stream).1 rfl
  ⟨rfl, hl.1, congrArg ReadableStream.m_reader hl.2, rfl,
    (get_reader_exclusive sample_unlocked_stream).2.2 sample_reader sample_reader rfl⟩

section Construct

variable {ReadableStreamType : Type} [DecidableEq ReadableStreamType]

/-- What `construct_impl` does once the stream is allocated and the source is
converted to a dictionary with no type. -/
theorem construct_impl_no_type (realm : Realm) (Bytes : ReadableStreamType)
    (from_value : Value → Except Exception (UnderlyingSource ReadableStreamType))
    (set_up : ReadableStream → Value → UnderlyingSource ReadableStreamType → Rat →
      SizeAlgorithm → Except Exception Unit × ReadableStream)
    (underlying_source_object : Option ObjectPtr)
    (dict : UnderlyingSource ReadableStreamType)
    (halloc : realm.allocation_succeeds = true)
    (hconvert : from_value ((underlying_source_object.map Value.object).getD Value.null)
      = Except.ok dict)
    (htype : dict.type = none) :
    construct_impl realm Bytes from_value set_up underlying_source_object
      = { result :=
            match set_up (ReadableStream.ctor realm)
                ((underlying_source_object.map Value.object).getD Value.null) dict 1
                (fun _ => JS.normal_completion (Value.number 1)) with
            | (Except.error e, _) => Result.exception e
            | (Except.ok (), stream) => Result.value stream
          calls :=
            [ConstructCall.from_value
                ((underlying_source_object.map Value.object).getD Value.null),
              ConstructCall.VERIFY true,
              ConstructCall.set_up_readable_stream_default_controller_from_underlying_source
                (ReadableStream.ctor realm)
                ((underlying_source_object.map Value.object).getD Value.null) dict 1
                (fun _ => JS.normal_completion (Value.number 1))] } := by
  unfold construct_impl
  simp only [Realm.heap_allocate, halloc, if_true, MUST_OR_THROW_OOM, hconvert, htype,
    Option.isSome_none, Bool.false_and, Bool.false_eq_true, if_false, Bool.not_false]
  split <;> simp_all

/-- What `construct_impl` does once the stream is allocated and the source is
converted to a dictionary that has a type. -/
theorem construct_impl_some_type (realm : Realm) (Bytes : ReadableStreamType)
    (from_value : Value → Except Exception (UnderlyingSource ReadableStreamType))
    (set_up : ReadableStream → Value → UnderlyingSource ReadableStreamType → Rat →
      SizeAlgorithm → Except Exception Unit × ReadableStream)
    (underlying_source_object : Option ObjectPtr)
    (dict : UnderlyingSource ReadableStreamType) (type : ReadableStreamType)
    (halloc : realm.allocation_succeeds = true)
    (hconvert : from_value ((underlying_source_object.map Value.object).getD Value.null)
      = Except.ok dict)
    (htype : dict.type = some type) :
    construct_impl realm Bytes from_value set_up underlying_source_object
      = if type = Bytes then
          { result := Result.TODO
            calls := [ConstructCall.from_value
              ((underlying_source_object.map Value.object).getD Value.null)] }
        else
          { result := Result.VERIFY_failed
            calls := [ConstructCall.from_value
                ((underlying_source_object.map Value.object).getD Value.null),
              ConstructCall.VERIFY false] } := by
  unfold construct_impl
  simp only [Realm.heap_allocate, halloc, if_true, MUST_OR_THROW_OOM, hconvert, htype,
    Option.isSome_some, Bool.true_and, Bool.not_true, Bool.false_eq_true, if_false,
    Option.some.injEq, decide_eq_true_eq]

/-- What `construct_impl` does once the stream is allocated and the conversion
of the source fails. -/
theorem construct_impl_conversion_error (realm : Realm) (Bytes : ReadableStreamType)
    (from_value : Value → Except Exception (UnderlyingSource ReadableStreamType))
    (set_up : ReadableStream → Value → UnderlyingSource ReadableStreamType → Rat →
      SizeAlgorithm → Except Exception Unit × ReadableStream)
    (underlying_source_object : Option ObjectPtr) (e : Exception)
    (halloc : realm.allocation_succeeds = true)
    (hconvert : from_value ((underlying_source_object.map Value.object).getD Value.null)
      = Except.error e) :
    construct_impl realm Bytes from_value set_up underlying_source_object
      = { result := Result.exception e
          calls := [ConstructCall.from_value
            ((underlying_source_object.map Value.object).getD Value.null)] } := by
  unfold construct_impl
  simp only [Realm.heap_allocate, halloc, if_true, MUST_OR_THROW_OOM, hconvert]

/-- What `construct_impl` does when the heap has no room for the stream. -/
theorem construct_impl_out_of_memory (realm : Realm) (Bytes : ReadableStreamType)
    (from_value : Value → Except Exception (UnderlyingSource ReadableStreamType))
    (set_up : ReadableStream → Value → UnderlyingSource ReadableStreamType → Rat →
      SizeAlgorithm → Except Exception Unit × ReadableStream)
    (underlying_source_object : Option ObjectPtr)
    (halloc : realm.allocation_succeeds = false) :
    construct_impl realm Bytes from_value set_up underlying_source_object
      = { result := Result.exception Exception.out_of_memory, calls := [] } := by
  unfold construct_impl
  simp only [Realm.heap_allocate, halloc, Bool.false_eq_true, if_false, MUST_OR_THROW_OOM]

/-- C5: when the converted dictionary has no type, `construct_impl` calls the
default-controller setup exactly once, on the newly allocated stream, with
high-water mark 1 and a size algorithm returning the normal completion 1 for
every chunk, whatever the caller supplied; when setup succeeds it returns the
stream setup worked on, and when setup fails it fails with the same
exception. -/
theorem construct_impl_fixed_default_strategy (realm : Realm) (Bytes : ReadableStreamType)
    (from_value : Value → Except Exception (UnderlyingSource ReadableStreamType))
    (set_up : ReadableStream → Value → UnderlyingSource ReadableStreamType → Rat →
      SizeAlgorithm → Except Exception Unit × ReadableStream)
    (underlying_source_object : Option ObjectPtr)
    (dict : UnderlyingSource ReadableStreamType)
    (halloc : realm.allocation_succeeds = true)
    (hconvert : from_value ((underlying_source_object.map Value.object).getD Value.null)
      = Except.ok dict)
    (htype : dict.type = none) :
    ∃ size_algorithm : SizeAlgorithm,
      (∀ chunk : Value, size_algorithm chunk = Completion.normal (Value.number 1))
      ∧ (construct_impl realm Bytes from_value set_up underlying_source_object).calls
          = [ConstructCall.from_value
              ((underlying_source_object.map Value.object).getD Value.null),
            ConstructCall.VERIFY true,
            ConstructCall.set_up_readable_stream_default_controller_from_underlying_source
              (ReadableStream.ctor realm)
              ((underlying_source_object.map Value.object).getD Value.null) dict 1
              size_algorithm]
      ∧ ((construct_impl realm Bytes from_value set_up underlying_source_object).calls.filter
          ConstructCall.is_set_up).length = 1
      ∧ (∀ stream : ReadableStream,
          set_up (ReadableStream.ctor realm)
              ((underlying_source_object.map Value.object).getD Value.null) dict 1
              size_algorithm = (Except.ok (), stream) →
          (construct_impl realm Bytes from_value set_up underlying_source_object).result
            = Result.value stream)
      ∧ (∀ (e : Exception) (stream : ReadableStream),
          set_up (ReadableStream.ctor realm)
              ((underlying_source_object.map Value.object).getD Value.null) dict 1
              size_algorithm = (Except.error e, stream) →
          (construct_impl realm Bytes from_value set_up underlying_source_object).result
            = Result.exception e) := by
  refine ⟨fun _ => JS.normal_completion (Value.number 1), fun _ => rfl, ?_, ?_, ?_, ?_⟩
  · rw [construct_impl_no_type realm Bytes from_value set_up underlying_source_object dict
      halloc hconvert htype]
  · rw [construct_impl_no_type realm Bytes from_value set_up underlying_source_object dict
      halloc hconvert htype]
    rfl
  · intro stream hsetup
    rw [construct_impl_no_type realm Bytes from_value set_up underlying_source_object dict
      halloc hconvert htype]
    simp only [hsetup]
  · intro e stream hsetup
    rw [construct_impl_no_type realm Bytes from_value set_up underlying_source_object dict
      halloc hconvert htype]
    simp only [hsetup]

/-- Witness of C5: constructing from a missing source with the sample
conversion and setup calls setup once and returns the stream it set up. -/
theorem construct_impl_fixed_default_strategy_witness :
    sample_realm.allocation_succeeds = true
    ∧ sample_from_value ((Option.map Value.object none).getD Value.null) = Except.ok sample_dict
    ∧ sample_dict.type = none
    ∧ ((construct_impl sample_realm SampleReadableStreamType.Bytes sample_from_value
          sample_set_up none).calls.filter ConstructCall.is_set_up).length = 1
    ∧ (construct_impl sample_realm SampleReadableStreamType.Bytes sample_from_value
          sample_set_up none).result
        = Result.value (sample_set_up (ReadableStream.ctor sample_realm) Value.null sample_dict 1
            (fun _ => Completion.normal (Value.number 1))).2 :=
  ⟨rfl, rfl, rfl,
    (construct_impl_fixed_default_strategy sample_realm SampleReadableStreamType.Bytes
      sample_from_value sample_set_up none sample_dict rfl rfl rfl).elim
      (fun _ h => h.2.2.1),
    rfl⟩

/-- C6: once the stream is allocated and the source converts to a dictionary
with no type, `construct_impl` hands controller setup the very stream the
allocation on its first line yielded, and that stream is Readable,
undisturbed, with no stored error and no reader: `is_readable()` is true and
`is_closed()`, `is_errored()`, `is_locked()`, `is_disturbed()` are false; and
on every path, a stream handed to controller setup is that allocated stream,
in that initial state. -/
theorem construct_impl_initial_state (realm : Realm) (Bytes : ReadableStreamType)
    (from_value : Value → Except Exception (UnderlyingSource ReadableStreamType))
    (set_up : ReadableStream → Value → UnderlyingSource ReadableStreamType → Rat →
      SizeAlgorithm → Except Exception Unit × ReadableStream)
    (underlying_source_object : Option ObjectPtr) :
    (∀ dict : UnderlyingSource ReadableStreamType,
      realm.allocation_succeeds = true →
      from_value ((underlying_source_object.map Value.object).getD Value.null) = Except.ok dict →
      dict.type = none →
      ∃ (stream : ReadableStream) (size_algorithm : SizeAlgorithm),
        MUST_OR_THROW_OOM (realm.heap_allocate (ReadableStream.ctor realm)) = Except.ok stream
        ∧ (construct_impl realm Bytes from_value set_up underlying_source_object).calls
            = [ConstructCall.from_value
                ((underlying_source_object.map Value.object).getD Value.null),
              ConstructCall.VERIFY true,
              ConstructCall.set_up_readable_stream_default_controller_from_underlying_source
                stream ((underlying_source_object.map Value.object).getD Value.null) dict 1
                size_algorithm]
        ∧ stream.m_state = State.Readable
        ∧ stream.m_disturbed = false
        ∧ stream.m_stored_error = Value.undefined
        ∧ stream.m_reader = none
        ∧ ReadableStream.is_readable stream = true
        ∧ ReadableStream.is_closed stream = false
        ∧ ReadableStream.is_errored stream = false
        ∧ ReadableStream.is_locked stream = false
        ∧ ReadableStream.is_disturbed stream = false)
    ∧ (∀ (stream : ReadableStream) (underlying_source : Value)
        (dict : UnderlyingSource ReadableStreamType) (high_water_mark : Rat)
        (size_algorithm : SizeAlgorithm),
      ConstructCall.set_up_readable_stream_default_controller_from_underlying_source
          stream underlying_source dict high_water_mark size_algorithm
        ∈ (construct_impl realm Bytes from_value set_up underlying_source_object).calls →
      MUST_OR_THROW_OOM (realm.heap_allocate (ReadableStream.ctor realm)) = Except.ok stream
      ∧ stream.m_state = State.Readable
      ∧ stream.m_disturbed = false
      ∧ stream.m_stored_error = Value.undefined
      ∧ stream.m_reader = none
      ∧ ReadableStream.is_readable stream = true
      ∧ ReadableStream.is_closed stream = false
      ∧ ReadableStream.is_errored stream = false
      ∧ ReadableStream.is_locked stream = false
      ∧ ReadableStream.is_disturbed stream = false) := by
  have hinitial : ∀ stream : ReadableStream, stream = ReadableStream.ctor realm →
      stream.m_state = State.Readable
      ∧ stream.m_disturbed = false
      ∧ stream.m_stored_error = Value.undefined
      ∧ stream.m_reader = none
      ∧ ReadableStream.is_readable stream = true
      ∧ ReadableStream.is_closed stream = false
      ∧ ReadableStream.is_errored stream = false
      ∧ ReadableStream.is_locked stream = false
      ∧ ReadableStream.is_disturbed stream = false := by
    intro stream hfresh
    subst hfresh
    simp [ReadableStream.ctor, ReadableStream.is_readable, ReadableStream.is_closed,
      ReadableStream.is_errored, ReadableStream.is_locked, ReadableStream.is_disturbed,
      is_readable_stream_locked]
  constructor
  · intro dict hroom hconvert htype
    refine ⟨ReadableStream.ctor realm, fun _ => JS.normal_completion (Value.number 1), ?_, ?_,
      hinitial _ rfl⟩
    · simp [Realm.heap_allocate, MUST_OR_THROW_OOM, hroom]
    · rw [construct_impl_no_type realm Bytes from_value set_up underlying_source_object dict
        hroom hconvert htype]
  · intro stream underlying_source dict high_water_mark size_algorithm hcall
    cases hroom : realm.allocation_succeeds with
    | false =>
      rw [construct_impl_out_of_memory realm Bytes from_value set_up underlying_source_object
        hroom] at hcall
      simp at hcall
    | true =>
      cases hconvert :
          from_value ((underlying_source_object.map Value.object).getD Value.null) with
      | error e =>
        rw [construct_impl_conversion_error realm Bytes from_value set_up
          underlying_source_object e hroom hconvert] at hcall
        simp at hcall
      | ok converted =>
        cases htype : converted.type with
        | none =>
          rw [construct_impl_no_type realm Bytes from_value set_up underlying_source_object
            converted hroom hconvert htype] at hcall
          simp at hcall
          refine ⟨?_, hinitial _ hcall.1⟩
          rw [hcall.1]
          simp [Realm.heap_allocate, MUST_OR_THROW_OOM, hroom]
        | some type =>
          rw [construct_impl_some_type realm Bytes from_value set_up underlying_source_object
            converted type hroom hconvert htype] at hcall
          split at hcall <;> simp at hcall

/-- Witness of C6: constructing from a missing source in `sample_realm` hands
setup a Readable, undisturbed, unlocked stream with no stored error. -/
theorem construct_impl_initial_state_witness :
    sample_realm.allocation_succeeds = true
    ∧ sample_from_value ((Option.map Value.object none).getD Value.null) = Except.ok sample_dict
    ∧ sample_dict.type = none
    ∧ ∃ (stream : ReadableStream) (size_algorithm : SizeAlgorithm),
        MUST_OR_THROW_OOM (sample_realm.heap_allocate (ReadableStream.ctor sample_realm))
          = Except.ok stream
        ∧ (construct_impl sample_realm SampleReadableStreamType.Bytes sample_from_value
            sample_set_up none).calls
            = [ConstructCall.from_value ((Option.map Value.object none).getD Value.null),
              ConstructCall.VERIFY true,
              ConstructCall.set_up_readable_stream_default_controller_from_underlying_source
                stream ((Option.map Value.object none).getD Value.null) sample_dict 1
                size_algorithm]
        ∧ stream.m_state = State.Readable
        ∧ stream.m_disturbed = false
        ∧ stream.m_stored_error = Value.undefined
        ∧ stream.m_reader = none
        ∧ ReadableStream.is_readable stream = true
        ∧ ReadableStream.is_closed stream = false
        ∧ ReadableStream.is_errored stream = false
        ∧ ReadableStream.is_locked stream = false
        ∧ ReadableStream.is_disturbed stream = false :=
  ⟨rfl, rfl, rfl,
    (construct_impl_initial_state sample_realm SampleReadableStreamType.Bytes
      sample_from_value sample_set_up none).1 sample_dict rfl rfl rfl⟩

/-- C9: when the converted dictionary has type "bytes", `construct_impl` returns
no stream, never calls the default-controller setup, and (the stream being
allocated) ends in the `TODO()` abort; and whenever the default-controller
setup is called, the source converted to a dictionary whose type is absent. -/
theorem construct_impl_bytes_unimplemented (realm : Realm) (Bytes : ReadableStreamType)
    (from_value : Value → Except Exception (UnderlyingSource ReadableStreamType))
    (set_up : ReadableStream → Value → UnderlyingSource ReadableStreamType → Rat →
      SizeAlgorithm → Except Exception Unit × ReadableStream)
    (underlying_source_object : Option ObjectPtr) :
    (∀ dict : UnderlyingSource ReadableStreamType,
      from_value ((underlying_source_object.map Value.object).getD Value.null) = Except.ok dict →
      dict.type = some Bytes →
      (∀ stream : ReadableStream,
        (construct_impl realm Bytes from_value set_up underlying_source_object).result
          ≠ Result.value stream)
      ∧ (∀ call ∈ (construct_impl realm Bytes from_value set_up underlying_source_object).calls,
          ConstructCall.is_set_up call = false)
      ∧ (realm.allocation_succeeds = true →
          (construct_impl realm Bytes from_value set_up underlying_source_object).result
            = Result.TODO))
    ∧ ((∃ call ∈ (construct_impl realm Bytes from_value set_up underlying_source_object).calls,
          ConstructCall.is_set_up call = true) →
        ∃ dict : UnderlyingSource ReadableStreamType,
          from_value ((underlying_source_object.map Value.object).getD Value.null)
            = Except.ok dict
          ∧ dict.type = none) := by
  cases hroom : realm.allocation_succeeds with
  | false =>
    rw [construct_impl_out_of_memory realm Bytes from_value set_up underlying_source_object hroom]
    simp
  | true =>
    cases hconvert :
        from_value ((underlying_source_object.map Value.object).getD Value.null) with
    | error e =>
      rw [construct_impl_conversion_error realm Bytes from_value set_up
        underlying_source_object e hroom hconvert]
      simp [ConstructCall.is_set_up]
    | ok converted =>
      cases htype : converted.type with
      | none =>
        constructor
        · intro dict hdict hbytes
          injection hdict with hdict
          rw [← hdict, htype] at hbytes
          exact absurd hbytes (by simp)
        · intro _
          exact ⟨converted, rfl, htype⟩
      | some type =>
        rw [construct_impl_some_type realm Bytes from_value set_up underlying_source_object
          converted type hroom hconvert htype]
        constructor
        · intro dict hdict hbytes
          injection hdict with hdict
          rw [← hdict, htype] at hbytes
          injection hbytes with hbytes
          simp [hbytes, ConstructCall.is_set_up]
        · split <;> simp [ConstructCall.is_set_up]

/-- Witness of C9: the sample object at address 1 converts to a "bytes"
dictionary and construction ends in `TODO()` with no setup call. -/
theorem construct_impl_bytes_unimplemented_witness :
    sample_from_value ((Option.map Value.object (some 1)).getD Value.null)
      = Except.ok sample_bytes_dict
    ∧ sample_bytes_dict.type = some SampleReadableStreamType.Bytes
    ∧ (construct_impl sample_realm SampleReadableStreamType.Bytes sample_from_value
        sample_set_up (some 1)).result = Result.TODO
    ∧ (∃ dict : UnderlyingSource SampleReadableStreamType,
        sample_from_value ((Option.map Value.object none).getD Value.null) = Except.ok dict
        ∧ dict.type = none) :=
  ⟨rfl, rfl,
    ((construct_impl_bytes_unimplemented sample_realm SampleReadableStreamType.Bytes
      sample_from_value sample_set_up (some 1)).1 sample_bytes_dict rfl rfl).2.2 rfl,
    (construct_impl_bytes_unimplemented sample_realm SampleReadableStreamType.Bytes
      sample_from_value sample_set_up none).2
      ⟨_, List.mem_cons_of_mem _ (List.mem_cons_of_mem _ (List.mem_singleton.mpr rfl)), rfl⟩⟩

/-- C10: when "bytes" is the only value a source's type can take, every
evaluation of the assertion in `construct_impl` finds it true and the call
never ends in a failed `VERIFY`; and when the conversion of the source fails
(the stream being allocated), `construct_impl` fails with that error without
evaluating the assertion or calling controller setup. -/
theorem construct_impl_assertion_holds (realm : Realm) (Bytes : ReadableStreamType)
    (from_value : Value → Except Exception (UnderlyingSource ReadableStreamType))
    (set_up : ReadableStream → Value → UnderlyingSource ReadableStreamType → Rat →
      SizeAlgorithm → Except Exception Unit × ReadableStream)
    (underlying_source_object : Option ObjectPtr)
    (honly : ∀ type : ReadableStreamType, type = Bytes) :
    ((construct_impl realm Bytes from_value set_up underlying_source_object).result
        ≠ Result.VERIFY_failed
      ∧ ∀ condition : Bool,
          ConstructCall.VERIFY condition
            ∈ (construct_impl realm Bytes from_value set_up underlying_source_object).calls →
          condition = true)
    ∧ (∀ e : Exception,
        realm.allocation_succeeds = true →
        from_value ((underlying_source_object.map Value.object).getD Value.null)
          = Except.error e →
        (construct_impl realm Bytes from_value set_up underlying_source_object).result
          = Result.exception e
        ∧ ∀ call ∈ (construct_impl realm Bytes from_value set_up underlying_source_object).calls,
            ConstructCall.is_VERIFY call = false ∧ ConstructCall.is_set_up call = false) := by
  constructor
  · cases hroom : realm.allocation_succeeds with
    | false =>
      rw [construct_impl_out_of_memory realm Bytes from_value set_up underlying_source_object
        hroom]
      simp
    | true =>
      cases hconvert :
          from_value ((underlying_source_object.map Value.object).getD Value.null) with
      | error e =>
        rw [construct_impl_conversion_error realm Bytes from_value set_up
          underlying_source_object e hroom hconvert]
        simp
      | ok converted =>
        cases htype : converted.type with
        | none =>
          rw [construct_impl_no_type realm Bytes from_value set_up underlying_source_object
            converted hroom hconvert htype]
          constructor
          · split <;> simp
          · intro condition hmem
            simp at hmem
            exact hmem
        | some type =>
          rw [construct_impl_some_type realm Bytes from_value set_up underlying_source_object
            converted type hroom hconvert htype, if_pos (honly type)]
          simp
  · intro e hroom hconvert
    rw [construct_impl_conversion_error realm Bytes from_value set_up underlying_source_object
      e hroom hconvert]
    simp [ConstructCall.is_VERIFY, ConstructCall.is_set_up]

/-- Witness of C10 over the one-valued sample enumeration: a source without a
type passes the assertion, and the object at address 2, whose conversion
throws, makes construction fail with the thrown value. -/
theorem construct_impl_assertion_holds_witness :
    (∀ type : SampleReadableStreamType, type = SampleReadableStreamType.Bytes)
    ∧ (construct_impl sample_realm SampleReadableStreamType.Bytes sample_from_value
        sample_set_up none).result ≠ Result.VERIFY_failed
    ∧ (construct_impl sample_realm SampleReadableStreamType.Bytes sample_from_value
        sample_set_up (some 2)).result
        = Result.exception (Exception.throw_completion (Value.number 13)) :=
  ⟨fun type => by cases type; rfl,
    (construct_impl_assertion_holds sample_realm SampleReadableStreamType.Bytes
      sample_from_value sample_set_up none (fun type => by cases type; rfl)).1.1,
    ((construct_impl_assertion_holds sample_realm SampleReadableStreamType.Bytes
      sample_from_value sample_set_up (some 2) (fun type => by cases type; rfl)).2
      _ rfl rfl).1⟩

end Construct

/-- C7: `locked()` and `is_locked()` are both true exactly when the reader slot is
non-empty, agree with each other, and `locked()` leaves the stream as it was
(`is_locked()` is const). -/
theorem locked_iff_reader_set (this : ReadableStream) :
    ((ReadableStream.locked this).1 = true ↔ this.m_reader ≠ none)
    ∧ (ReadableStream.is_locked this = true ↔ this.m_reader ≠ none)
    ∧ (ReadableStream.locked this).1 = ReadableStream.is_locked this
    ∧ (ReadableStream.locked this).2 = this := by
  cases hreader : this.m_reader <;>
    simp [ReadableStream.locked, ReadableStream.is_locked, is_readable_stream_locked, hreader]

/-- C8: `is_readable()`, `is_closed()` and `is_errored()` are decided by `m_state`
alone, exactly one of them is true, `is_disturbed()` is the disturbed flag, and
two streams with equal state get equal answers whatever their other
members. -/
theorem state_predicates_partition (this other : ReadableStream) :
    (ReadableStream.is_readable this = true ↔ this.m_state = State.Readable)
    ∧ (ReadableStream.is_closed this = true ↔ this.m_state = State.Closed)
    ∧ (ReadableStream.is_errored this = true ↔ this.m_state = State.Errored)
    ∧ ((ReadableStream.is_readable this = true ∧ ReadableStream.is_closed this = false
          ∧ ReadableStream.is_errored this = false)
        ∨ (ReadableStream.is_readable this = false ∧ ReadableStream.is_closed this = true
          ∧ ReadableStream.is_errored this = false)
        ∨ (ReadableStream.is_readable this = false ∧ ReadableStream.is_closed this = false
          ∧ ReadableStream.is_errored this = true))
    ∧ ReadableStream.is_disturbed this = this.m_disturbed
    ∧ (this.m_state = other.m_state →
        ReadableStream.is_readable this = ReadableStream.is_readable other
        ∧ ReadableStream.is_closed this = ReadableStream.is_closed other
        ∧ ReadableStream.is_errored this = ReadableStream.is_errored other) := by
  refine ⟨?_, ?_, ?_, ?_, rfl, ?_⟩
  · simp [ReadableStream.is_readable]
  · simp [ReadableStream.is_closed]
  · simp [ReadableStream.is_errored]
  · cases hstate : this.m_state <;>
      simp [ReadableStream.is_readable, ReadableStream.is_closed, ReadableStream.is_errored,
        hstate]
  · intro hstate
    simp [ReadableStream.is_readable, ReadableStream.is_closed, ReadableStream.is_errored,
      hstate]

/-- Witness of C8: the locked and the unlocked sample streams are both Readable
and answer alike, though their readers differ. -/
theorem state_predicates_partition_witness :
    sample_locked_stream.m_state = sample_unlocked_stream.m_state
    ∧ sample_locked_stream.m_reader ≠ sample_unlocked_stream.m_reader
    ∧ ReadableStream.is_readable sample_locked_stream
        = ReadableStream.is_readable sample_unlocked_stream
    ∧ ReadableStream.is_closed sample_locked_stream
        = ReadableStream.is_closed sample_unlocked_stream
    ∧ ReadableStream.is_errored sample_locked_stream
        = ReadableStream.is_errored sample_unlocked_stream :=
  ⟨rfl, by decide,
    (state_predicates_partition sample_locked_stream sample_unlocked_stream).2.2.2.2.2 rfl⟩

end Web.Streams
